import Mathlib

/-!
Verification model of `src/lib/Consumer.d.ts` (mediasoup server-side RTP
Consumer).  The repository ships only the TypeScript declaration file: the
type definitions, the public attribute surface and the documented event
vocabularies come from `Consumer.d.ts`; the method bodies are absent from
the sources, so the behaviour of each operation is modelled from the spec
(each such definition carries a `Modelled from the spec:` doc comment).

Opaque TypeScript `any` payloads (rtpParameters, appData) are modelled as
type parameters `R` and `A`; identifiers are `String` as in the source.
-/

/-- Media kind, from `MediaKind` (audio | video). -/
inductive MediaKind
| audio
| video
deriving DecidableEq

/-- Consumer type, from `ConsumerType = 'simple' | 'simulcast' | 'svc' | 'pipe'`. -/
inductive ConsumerType
| simple
| simulcast
| svc
| pipe
deriving DecidableEq

/-- Valid types for the 'trace' event, from
`ConsumerTraceEventType = 'rtp' | 'keyframe' | 'nack' | 'pli' | 'fir'`. -/
inductive ConsumerTraceEventType
| rtp
| keyframe
| nack
| pli
| fir
deriving DecidableEq

/-- Direction field of trace event data (`'in' | 'out'`). -/
inductive TraceDirection
| dirIn
| dirOut
deriving DecidableEq

/-- Trace event data, from `ConsumerTraceEventData`; the `info: any`
payload is opaque and modelled as a `Nat`, the timestamp as a `Nat`. -/
structure ConsumerTraceEventData where
  type : ConsumerTraceEventType
  timestamp : Nat
  direction : TraceDirection
  info : Nat
deriving DecidableEq

/-- Consumer score, from `ConsumerScore`: the score of the consumer RTP
stream, the score of the currently selected producer RTP stream, and the
scores of all RTP streams in the producer. -/
structure ConsumerScore where
  score : Nat
  producerScore : Nat
  producerScores : List Nat
deriving DecidableEq

/-- Spatial/temporal layers, from `ConsumerLayers` (`temporalLayer` optional). -/
structure ConsumerLayers where
  spatialLayer : Nat
  temporalLayer : Option Nat
deriving DecidableEq

/-- Error kinds surfaced to callers, from the spec (section 7): an
InvalidStateError for commands after closure, a ParameterError for
malformed input, a RequestFailedError reported by the engine, and a
generic error used by the rejected `appData` setter. -/
inductive MsError
| invalidStateError (msg : String)
| parameterError (msg : String)
| requestFailedError (msg : String)
| genericError (msg : String)
deriving DecidableEq

/-- Consumer cached state, mirroring the private fields of `class Consumer`
in `Consumer.d.ts` (`_closed`, `_paused`, `_producerPaused`, `_priority`,
`_score`, `_preferredLayers`, `_currentLayers`, `_appData`) together with
the immutable identity/data fields exposed by the getters.  `R` is the
opaque `RtpParameters` payload, `A` the opaque `appData` bag. -/
structure Consumer (R A : Type) where
  id : String
  producerId : String
  kind : MediaKind
  rtpParameters : R
  type : ConsumerType
  closed : Bool
  paused : Bool
  producerPaused : Bool
  priority : Nat
  score : ConsumerScore
  preferredLayers : Option ConsumerLayers
  currentLayers : Option ConsumerLayers
  appData : A
deriving DecidableEq

/-- Application-level commands of the Consumer (the nine command methods
of `Consumer.d.ts`: dump, getStats, pause, resume, setPreferredLayers,
setPriority, unsetPriority, requestKeyFrame, enableTraceEvent). -/
inductive Command
| dump
| getStats
| pause
| resume
| setPreferredLayers (layers : ConsumerLayers)
| setPriority (priority : Nat)
| unsetPriority
| requestKeyFrame
| enableTraceEvent (types : Option (List ConsumerTraceEventType))
deriving DecidableEq

/-- Outbound Channel requests, from the spec's method table (section 6):
each command maps to exactly one request carrying its payload (the
request is implicitly addressed by the Consumer's internal identity
triple, which only serves addressing and is not modelled further). -/
inductive Request
| dump
| getStats
| pause
| resume
| setPreferredLayers (layers : ConsumerLayers)
| setPriority (priority : Nat)
| unsetPriority (priority : Nat)
| requestKeyFrame
| enableTraceEvent (types : List ConsumerTraceEventType)
deriving DecidableEq

/-- Successful reply resolutions for pending requests.  `setPreferredLayers`
carries the layers the engine returned (it may clamp), `setPriority` and
`unsetPriority` carry the returned priority; the remaining replies carry
pass-through payloads that are never cached and are not modelled. -/
inductive Reply
| dump
| getStats
| pause
| resume
| setPreferredLayers (layers : Option ConsumerLayers)
| setPriority (priority : Nat)
| unsetPriority (priority : Nat)
| requestKeyFrame
| enableTraceEvent
deriving DecidableEq

/-- Notifications pushed by the engine for this Consumer, from the spec
(section 6): `producerclose`, `producerpause`, `producerresume` carry no
payload; `score`, `layerschange` and `trace` carry payloads; unrecognized
types are kept abstract by their type string. -/
inductive Notification
| producerclose
| producerpause
| producerresume
| score (s : ConsumerScore)
| layerschange (layers : Option ConsumerLayers)
| trace (t : ConsumerTraceEventData)
| unrecognized (eventType : String)
deriving DecidableEq

/-- Primary-stream events, from the `@emits` vocabulary documented on
`class Consumer` in `Consumer.d.ts` (lines 128-139): transportclose,
producerclose, producerpause, producerresume, score, layerschange, trace,
plus the internal-only signals `@close` (`atClose`) and `@producerclose`
(`atProducerClose`).  Note this vocabulary contains no pause/resume
event. -/
inductive PrimaryEvent
| transportclose
| producerclose
| producerpause
| producerresume
| score (s : ConsumerScore)
| layerschange (layers : Option ConsumerLayers)
| trace (t : ConsumerTraceEventData)
| atClose
| atProducerClose
deriving DecidableEq

/-- Observer-stream events, from the `@emits` vocabulary documented on the
`observer` getter in `Consumer.d.ts`: close, pause, resume, score,
layerschange, trace. -/
inductive ObserverEvent
| close
| pause
| resume
| score (s : ConsumerScore)
| layerschange (layers : Option ConsumerLayers)
| trace (t : ConsumerTraceEventData)
deriving DecidableEq

/-- Modelled from the spec: the defined default priority that
`unsetPriority` resets to (the spec only requires it to be a defined
positive integer default; the constructor body is absent from the
sources). -/
def defaultPriority : Nat := 1

/-- Modelled from the spec: the full recognized trace event type set
used when `enableTraceEvent` is called with an omitted or empty list
(rtp, keyframe, nack, pli, fir). -/
def allTraceEventTypes : List ConsumerTraceEventType :=
  [.rtp, .keyframe, .nack, .pli, .fir]

/-- Modelled from the spec: construction with an initial snapshot
(paused, producerPaused, score, preferredLayers) supplied by the caller,
mirroring the worker's creation response; `currentLayers` starts absent,
`closed` starts false, priority starts at the defined default, and the
`appData` reference supplied here is fixed (the constructor body is
absent from the sources). -/
def Consumer.create (id producerId : String) (kind : MediaKind)
    (rtpParameters : R) (type : ConsumerType) (appData : A)
    (paused producerPaused : Bool) (score : ConsumerScore)
    (preferredLayers : Option ConsumerLayers) : Consumer R A :=
  { id := id
    producerId := producerId
    kind := kind
    rtpParameters := rtpParameters
    type := type
    closed := false
    paused := paused
    producerPaused := producerPaused
    priority := defaultPriority
    score := score
    preferredLayers := preferredLayers
    currentLayers := none
    appData := appData }

/-- Modelled from the spec: the synchronous validation/issue phase of a
command (the method bodies are absent from the sources).  Any command
invoked after closure fails with InvalidStateError immediately, without
contacting the Channel; a malformed input (non-positive priority) fails
with ParameterError before a request is issued; otherwise exactly one
outbound request is produced per the method table of the spec, with an
omitted or empty trace type list meaning all recognized types. -/
def Consumer.invoke (c : Consumer R A) (k : Command) : Except MsError Request :=
  if c.closed then
    .error (.invalidStateError "closed")
  else
    match k with
    | .dump => .ok .dump
    | .getStats => .ok .getStats
    | .pause => .ok .pause
    | .resume => .ok .resume
    | .setPreferredLayers layers => .ok (.setPreferredLayers layers)
    | .setPriority priority =>
        if priority = 0 then .error (.parameterError "invalid priority")
        else .ok (.setPriority priority)
    | .unsetPriority => .ok (.unsetPriority defaultPriority)
    | .requestKeyFrame => .ok .requestKeyFrame
    | .enableTraceEvent types =>
        match types with
        | none => .ok (.enableTraceEvent allTraceEventTypes)
        | some [] => .ok (.enableTraceEvent allTraceEventTypes)
        | some ts => .ok (.enableTraceEvent ts)

/-- Modelled from the spec: resolution of a pending successful reply (the
method bodies are absent from the sources).  An explicit liveness check
on the closed flag is performed at the point the reply resolves, before
any cache mutation or event emission: if the Consumer closed while the
request was in flight, the reply is discarded wholesale (no cache
mutation, no event).  Otherwise: pause/resume set the paused flag and
emit the observer pause/resume event only on an actual transition;
setPreferredLayers caches the returned layers; setPriority/unsetPriority
cache the returned priority; dump/getStats/requestKeyFrame/
enableTraceEvent mutate no cached state.  Results in (state, primary
events, observer events). -/
def Consumer.applyReply (c : Consumer R A) (r : Reply) :
    Consumer R A × List PrimaryEvent × List ObserverEvent :=
  if c.closed then
    (c, [], [])
  else
    match r with
    | .pause =>
        ({ c with paused := true }, [],
         if c.paused then [] else [.pause])
    | .resume =>
        ({ c with paused := false }, [],
         if c.paused then [.resume] else [])
    | .setPreferredLayers layers =>
        ({ c with preferredLayers := layers }, [], [])
    | .setPriority priority =>
        ({ c with priority := priority }, [], [])
    | .unsetPriority priority =>
        ({ c with priority := priority }, [], [])
    | .dump => (c, [], [])
    | .getStats => (c, [], [])
    | .requestKeyFrame => (c, [], [])
    | .enableTraceEvent => (c, [], [])

/-- Modelled from the spec: `close()` (its body is absent from the
sources).  On a non-closed Consumer it marks the terminal closed state,
emits the internal `@close` signal on the primary stream and `close` on
the observer stream; invoked on an already-closed Consumer it is a
defined no-op (no error, no state change, no event).  No Channel request
is part of the spec's method table for closure. -/
def Consumer.close (c : Consumer R A) :
    Consumer R A × List PrimaryEvent × List ObserverEvent :=
  if c.closed then
    (c, [], [])
  else
    ({ c with closed := true }, [.atClose], [.close])

/-- Modelled from the spec: `transportClosed()` (its body is absent from
the sources).  Same effect as `close()` but emits `transportclose` on the
primary stream instead; a no-op when already closed. -/
def Consumer.transportClosed (c : Consumer R A) :
    Consumer R A × List PrimaryEvent × List ObserverEvent :=
  if c.closed then
    (c, [], [])
  else
    ({ c with closed := true }, [.transportclose], [.close])

/-- Modelled from the spec: `_handleWorkerNotifications` (its body is
absent from the sources).  Notifications are dispatched strictly by type
per the transition table: after closure no notification is applied;
`producerclose` marks closed and emits primary `producerclose` together
with the internal `@producerclose` signal, plus observer `close`;
`producerpause`/`producerresume` toggle `producerPaused` and emit only on
an actual transition (primary `producerpause`/`producerresume`, observer
`pause`/`resume` per the documented vocabularies); `score` replaces the
cached score wholesale and emits `score` on both streams; `layerschange`
replaces `currentLayers` with the pushed value (possibly absent) and
emits on both streams; `trace` passes the payload through on both
streams with no cached-state effect; unrecognized types are silently
ignored. -/
def Consumer.handleWorkerNotifications (c : Consumer R A) (n : Notification) :
    Consumer R A × List PrimaryEvent × List ObserverEvent :=
  if c.closed then
    (c, [], [])
  else
    match n with
    | .producerclose =>
        ({ c with closed := true },
         [.producerclose, .atProducerClose], [.close])
    | .producerpause =>
        if c.producerPaused then (c, [], [])
        else ({ c with producerPaused := true }, [.producerpause], [.pause])
    | .producerresume =>
        if c.producerPaused then
          ({ c with producerPaused := false }, [.producerresume], [.resume])
        else (c, [], [])
    | .score s =>
        ({ c with score := s }, [.score s], [.score s])
    | .layerschange layers =>
        ({ c with currentLayers := layers },
         [.layerschange layers], [.layerschange layers])
    | .trace t => (c, [.trace t], [.trace t])
    | .unrecognized _ => (c, [], [])

/-- Modelled from the spec: the invalid `appData` setter (its body is
absent from the sources; the declaration documents it as an invalid
setter).  Reassignment after construction is always rejected with an
error and the stored state is returned unchanged. -/
def Consumer.setAppData (c : Consumer R A) (_x : A) :
    Except MsError Unit × Consumer R A :=
  (.error (.genericError "cannot override appData object"), c)

/-- One interaction with the Consumer: an application command invocation,
the resolution of a pending successful reply, an engine notification, or
closure via `close()`/`transportClosed()`. -/
inductive Op
| cmd (k : Command)
| reply (r : Reply)
| notif (n : Notification)
| close
| transportClosed
deriving DecidableEq

/-- One step of the Consumer under an interaction, collecting the
resulting state, the outbound Channel request (if one was issued) and the
events emitted on the two streams. -/
def Consumer.step (c : Consumer R A) (op : Op) :
    Consumer R A × Option Request × List PrimaryEvent × List ObserverEvent :=
  match op with
  | .cmd k =>
      match c.invoke k with
      | .ok q => (c, some q, [], [])
      | .error _ => (c, none, [], [])
  | .reply r =>
      let res := c.applyReply r
      (res.1, none, res.2.1, res.2.2)
  | .notif n =>
      let res := c.handleWorkerNotifications n
      (res.1, none, res.2.1, res.2.2)
  | .close =>
      let res := Consumer.close c
      (res.1, none, res.2.1, res.2.2)
  | .transportClosed =>
      let res := c.transportClosed
      (res.1, none, res.2.1, res.2.2)

/-- Iterated stepping over a sequence of interactions (final state). -/
def Consumer.run (c : Consumer R A) : List Op → Consumer R A
  | [] => c
  | op :: ops => Consumer.run (c.step op).1 ops

/-- A concrete live (non-closed) sample consumer used by the witness
theorems below. -/
def liveSample : Consumer Nat Nat :=
  Consumer.create "c1" "p1" .video 0 .simulcast 7 false false
    ⟨10, 10, [10]⟩ none

/-- The sample consumer after it has been marked closed. -/
def closedSample : Consumer Nat Nat := { liveSample with closed := true }

/-- The sample consumer with a cached non-absent current layers value. -/
def layersSample : Consumer Nat Nat :=
  { liveSample with currentLayers := some ⟨2, some 1⟩ }

/-- Helper: on a closed consumer every interaction is inert — same state,
no outbound request, no event on either stream. -/
theorem Consumer.step_closed {R A : Type} (c : Consumer R A) (op : Op)
    (h : c.closed = true) : c.step op = (c, none, [], []) := by
  cases op <;>
    simp [Consumer.step, Consumer.invoke, Consumer.applyReply,
      Consumer.handleWorkerNotifications, Consumer.close,
      Consumer.transportClosed, h]

/-- Helper: running any interaction sequence from a closed consumer
leaves it unchanged. -/
theorem Consumer.run_closed {R A : Type} (ops : List Op) (c : Consumer R A)
    (h : c.closed = true) : c.run ops = c := by
  induction ops generalizing c with
  | nil => rfl
  | cons op ops ih =>
      simp [Consumer.run, Consumer.step_closed c op h, ih c h]

/-- C1: for every command (dump, getStats, pause, resume,
setPreferredLayers, setPriority, unsetPriority, requestKeyFrame,
enableTraceEvent), invoking it on a closed Consumer fails synchronously
with InvalidStateError and issues no request on the Channel (the step
produces no outbound request, so a request counter is unchanged). -/
theorem consumer_closed_command_invalid_state {R A : Type}
    (c : Consumer R A) (k : Command) (h : c.closed = true) :
    c.invoke k = .error (.invalidStateError "closed") ∧
      (c.step (.cmd k)).2.1 = none := by
  refine ⟨by simp [Consumer.invoke, h], ?_⟩
  simp [Consumer.step, Consumer.invoke, h]

/-- Witness for C1: a concrete closed consumer and the pause command. -/
theorem consumer_closed_command_invalid_state_witness :
    closedSample.invoke .pause =
        .error (.invalidStateError "closed") ∧
      (closedSample.step (.cmd .pause)).2.1 = none :=
  consumer_closed_command_invalid_state closedSample .pause rfl

/-- C2: the closed flag is absorbing and monotonic — once closed, every
interaction sequence leaves the Consumer closed (and in fact unchanged),
no interaction issues a Channel request, and no notification mutates
cached state or emits events. -/
theorem consumer_closed_monotonic_absorbing {R A : Type}
    (c : Consumer R A) (h : c.closed = true) :
    (∀ ops : List Op, (c.run ops).closed = true) ∧
      (∀ op : Op, (c.step op).2.1 = none) ∧
      (∀ n : Notification, c.handleWorkerNotifications n = (c, [], [])) := by
  refine ⟨?_, ?_, ?_⟩
  · intro ops
    rw [Consumer.run_closed ops c h]
    exact h
  · intro op
    simp [Consumer.step_closed c op h]
  · intro n
    simp [Consumer.handleWorkerNotifications, h]

/-- Witness for C2: a concrete closed consumer stays closed across a
concrete interaction sequence, issues no request and ignores a score
notification. -/
theorem consumer_closed_monotonic_absorbing_witness :
    (closedSample.run
        [.cmd .pause, .notif (.score ⟨3, 3, [3]⟩), .close]).closed = true ∧
      (closedSample.step (.cmd .resume)).2.1 = none ∧
      closedSample.handleWorkerNotifications (.score ⟨3, 3, [3]⟩) =
        (closedSample, [], []) :=
  ⟨(consumer_closed_monotonic_absorbing closedSample rfl).1 _,
   (consumer_closed_monotonic_absorbing closedSample rfl).2.1 _,
   (consumer_closed_monotonic_absorbing closedSample rfl).2.2 _⟩

/-- C3: a reply resolving after `close()` or `transportClosed()` is
discarded even when successful — the state is exactly the state at the
moment of closure (in particular every cached field keeps its pre-close
value) and no event is emitted on either stream. -/
theorem consumer_late_reply_discarded {R A : Type}
    (c : Consumer R A) (r : Reply) (h : c.closed = false) :
    ((c.close).1.applyReply r = ((c.close).1, [], [])) ∧
      ((c.transportClosed).1.applyReply r =
        ((c.transportClosed).1, [], [])) ∧
      ((c.close).1.applyReply r).1.paused = c.paused ∧
      ((c.close).1.applyReply r).1.producerPaused = c.producerPaused ∧
      ((c.close).1.applyReply r).1.priority = c.priority ∧
      ((c.close).1.applyReply r).1.score = c.score ∧
      ((c.close).1.applyReply r).1.preferredLayers = c.preferredLayers ∧
      ((c.close).1.applyReply r).1.currentLayers = c.currentLayers := by
  have hc : (Consumer.close c).1.closed = true := by
    simp [Consumer.close, h]
  have ht : (c.transportClosed).1.closed = true := by
    simp [Consumer.transportClosed, h]
  refine ⟨by simp [Consumer.applyReply, hc], by simp [Consumer.applyReply, ht],
    ?_, ?_, ?_, ?_, ?_, ?_⟩ <;>
    simp [Consumer.applyReply, hc, Consumer.close, h]

/-- Witness for C3: a concrete live consumer, closed, then a late
successful setPriority reply arrives and is fully discarded. -/
theorem consumer_late_reply_discarded_witness :
    ((liveSample.close).1.applyReply (.setPriority 5) =
        ((liveSample.close).1, [], [])) ∧
      ((liveSample.transportClosed).1.applyReply (.setPriority 5) =
        ((liveSample.transportClosed).1, [], [])) ∧
      ((liveSample.close).1.applyReply (.setPriority 5)).1.paused =
        liveSample.paused ∧
      ((liveSample.close).1.applyReply (.setPriority 5)).1.producerPaused =
        liveSample.producerPaused ∧
      ((liveSample.close).1.applyReply (.setPriority 5)).1.priority =
        liveSample.priority ∧
      ((liveSample.close).1.applyReply (.setPriority 5)).1.score =
        liveSample.score ∧
      ((liveSample.close).1.applyReply (.setPriority 5)).1.preferredLayers =
        liveSample.preferredLayers ∧
      ((liveSample.close).1.applyReply (.setPriority 5)).1.currentLayers =
        liveSample.currentLayers :=
  consumer_late_reply_discarded liveSample (.setPriority 5) rfl

/-- C4: a score notification replaces the cached score wholesale with the
pushed payload (no field-wise merge) and emits a score event with the new
value on both streams; after two sequential score notifications the cached
score equals exactly the second payload. -/
theorem consumer_score_notification_wholesale {R A : Type}
    (c : Consumer R A) (s1 s2 : ConsumerScore) (h : c.closed = false) :
    (c.handleWorkerNotifications (.score s1)).1.score = s1 ∧
      (c.handleWorkerNotifications (.score s1)).2.1 = [.score s1] ∧
      (c.handleWorkerNotifications (.score s1)).2.2 = [.score s1] ∧
      ((c.handleWorkerNotifications (.score s1)).1.handleWorkerNotifications
          (.score s2)).1.score = s2 ∧
      ((c.handleWorkerNotifications (.score s1)).1.handleWorkerNotifications
          (.score s2)).2.1 = [.score s2] ∧
      ((c.handleWorkerNotifications (.score s1)).1.handleWorkerNotifications
          (.score s2)).2.2 = [.score s2] := by
  simp [Consumer.handleWorkerNotifications, h]

/-- Witness for C4: the spec's own example payloads — after
`{score:5,...}` then `{score:9, producerScore:7, producerScores:[7,7]}`
the cached score equals exactly the second payload. -/
theorem consumer_score_notification_wholesale_witness :
    (liveSample.handleWorkerNotifications
        (.score ⟨5, 5, [5]⟩)).1.score = ⟨5, 5, [5]⟩ ∧
      (liveSample.handleWorkerNotifications
          (.score ⟨5, 5, [5]⟩)).2.1 = [.score ⟨5, 5, [5]⟩] ∧
      (liveSample.handleWorkerNotifications
          (.score ⟨5, 5, [5]⟩)).2.2 = [.score ⟨5, 5, [5]⟩] ∧
      ((liveSample.handleWorkerNotifications
          (.score ⟨5, 5, [5]⟩)).1.handleWorkerNotifications
            (.score ⟨9, 7, [7, 7]⟩)).1.score = ⟨9, 7, [7, 7]⟩ ∧
      ((liveSample.handleWorkerNotifications
          (.score ⟨5, 5, [5]⟩)).1.handleWorkerNotifications
            (.score ⟨9, 7, [7, 7]⟩)).2.1 = [.score ⟨9, 7, [7, 7]⟩] ∧
      ((liveSample.handleWorkerNotifications
          (.score ⟨5, 5, [5]⟩)).1.handleWorkerNotifications
            (.score ⟨9, 7, [7, 7]⟩)).2.2 = [.score ⟨9, 7, [7, 7]⟩] :=
  consumer_score_notification_wholesale liveSample ⟨5, 5, [5]⟩ ⟨9, 7, [7, 7]⟩ rfl

/-- C5 counterexample: on a concrete non-closed consumer with
`paused = false`, a successful pause reply does transition the paused flag
from false to true, yet no event at all is emitted on the primary stream
(its documented vocabulary contains no pause event) — the pause event
appears only on the observer stream, refuting the claim that the pause
event is emitted on the primary stream on this transition. -/
theorem consumer_pause_primary_event_counterexample :
    liveSample.closed = false ∧ liveSample.paused = false ∧
      (liveSample.applyReply .pause).1.paused = true ∧
      (liveSample.applyReply .pause).2.1 = [] ∧
      (liveSample.applyReply .pause).2.2 = [.pause] := by
  refine ⟨rfl, rfl, rfl, rfl, rfl⟩

/-- C5 amended: pause() emits the pause event on the observer stream only
(never on the primary stream, whose vocabulary has no pause event) and
only when the paused flag actually transitions false to true: two
consecutive successful pause replies emit the observer pause event exactly
once, the second call still issuing a request and succeeding; resume is
symmetric for the true-to-false transition. -/
theorem consumer_pause_event_once_observer {R A : Type}
    (c : Consumer R A) (h : c.closed = false) (hp : c.paused = false) :
    (c.applyReply .pause).2.2 = [.pause] ∧
      (c.applyReply .pause).2.1 = [] ∧
      (c.applyReply .pause).1.paused = true ∧
      (c.applyReply .pause).1.invoke .pause = .ok .pause ∧
      ((c.applyReply .pause).1.applyReply .pause).2.2 = [] ∧
      ((c.applyReply .pause).1.applyReply .pause).2.1 = [] ∧
      ((c.applyReply .pause).1.applyReply .pause).1.paused = true ∧
      (((c.applyReply .pause).1.applyReply .pause).1.applyReply
          .resume).2.2 = [.resume] ∧
      (((c.applyReply .pause).1.applyReply .pause).1.applyReply
          .resume).2.1 = [] ∧
      ((((c.applyReply .pause).1.applyReply .pause).1.applyReply
          .resume).1.applyReply .resume).2.2 = [] ∧
      ((((c.applyReply .pause).1.applyReply .pause).1.applyReply
          .resume).1.applyReply .resume).2.1 = [] := by
  simp [Consumer.applyReply, Consumer.invoke, h, hp]

/-- Witness for the amended C5 at the concrete live sample consumer. -/
theorem consumer_pause_event_once_observer_witness :
    (liveSample.applyReply .pause).2.2 = [.pause] ∧
      (liveSample.applyReply .pause).2.1 = [] ∧
      (liveSample.applyReply .pause).1.paused = true ∧
      (liveSample.applyReply .pause).1.invoke .pause = .ok .pause ∧
      ((liveSample.applyReply .pause).1.applyReply .pause).2.2 = [] ∧
      ((liveSample.applyReply .pause).1.applyReply .pause).2.1 = [] ∧
      ((liveSample.applyReply .pause).1.applyReply .pause).1.paused = true ∧
      (((liveSample.applyReply .pause).1.applyReply .pause).1.applyReply
          .resume).2.2 = [.resume] ∧
      (((liveSample.applyReply .pause).1.applyReply .pause).1.applyReply
          .resume).2.1 = [] ∧
      ((((liveSample.applyReply .pause).1.applyReply .pause).1.applyReply
          .resume).1.applyReply .resume).2.2 = [] ∧
      ((((liveSample.applyReply .pause).1.applyReply .pause).1.applyReply
          .resume).1.applyReply .resume).2.1 = [] :=
  consumer_pause_event_once_observer liveSample rfl rfl

/-- C6: processing a producerclose notification on a non-closed Consumer
marks it closed, emits producerclose together with the internal
`@producerclose` signal on the primary stream and close on the observer
stream, and a subsequent pause() fails with InvalidStateError. -/
theorem consumer_producerclose_notification {R A : Type}
    (c : Consumer R A) (h : c.closed = false) :
    (c.handleWorkerNotifications .producerclose).1.closed = true ∧
      (c.handleWorkerNotifications .producerclose).2.1 =
        [.producerclose, .atProducerClose] ∧
      (c.handleWorkerNotifications .producerclose).2.2 = [.close] ∧
      (c.handleWorkerNotifications .producerclose).1.invoke .pause =
        .error (.invalidStateError "closed") := by
  simp [Consumer.handleWorkerNotifications, Consumer.invoke, h]

/-- Witness for C6 at the concrete live sample consumer. -/
theorem consumer_producerclose_notification_witness :
    (liveSample.handleWorkerNotifications .producerclose).1.closed = true ∧
      (liveSample.handleWorkerNotifications .producerclose).2.1 =
        [.producerclose, .atProducerClose] ∧
      (liveSample.handleWorkerNotifications .producerclose).2.2 =
        [.close] ∧
      (liveSample.handleWorkerNotifications .producerclose).1.invoke
          .pause = .error (.invalidStateError "closed") :=
  consumer_producerclose_notification liveSample rfl

/-- C7: enableTraceEvent() invoked with no argument or with an empty list
issues a request whose types list equals exactly the full recognized set
(rtp, keyframe, nack, pli, fir — every recognized type is in the list),
and its successful reply mutates no cached state. -/
theorem consumer_enable_trace_event_default_full_set {R A : Type}
    (c : Consumer R A) (h : c.closed = false) :
    c.invoke (.enableTraceEvent none) =
        .ok (.enableTraceEvent allTraceEventTypes) ∧
      c.invoke (.enableTraceEvent (some [])) =
        .ok (.enableTraceEvent allTraceEventTypes) ∧
      allTraceEventTypes = [.rtp, .keyframe, .nack, .pli, .fir] ∧
      (∀ t : ConsumerTraceEventType, t ∈ allTraceEventTypes) ∧
      c.applyReply .enableTraceEvent = (c, [], []) := by
  refine ⟨by simp [Consumer.invoke, h], by simp [Consumer.invoke, h],
    rfl, ?_, by simp [Consumer.applyReply, h]⟩
  intro t
  cases t <;> simp [allTraceEventTypes]

/-- Witness for C7 at the concrete live sample consumer. -/
theorem consumer_enable_trace_event_default_full_set_witness :
    liveSample.invoke (.enableTraceEvent none) =
        .ok (.enableTraceEvent allTraceEventTypes) ∧
      liveSample.invoke (.enableTraceEvent (some [])) =
        .ok (.enableTraceEvent allTraceEventTypes) ∧
      allTraceEventTypes = [.rtp, .keyframe, .nack, .pli, .fir] ∧
      (ConsumerTraceEventType.keyframe ∈ allTraceEventTypes) ∧
      liveSample.applyReply .enableTraceEvent = (liveSample, [], []) :=
  ⟨(consumer_enable_trace_event_default_full_set liveSample rfl).1,
   (consumer_enable_trace_event_default_full_set liveSample rfl).2.1,
   (consumer_enable_trace_event_default_full_set liveSample rfl).2.2.1,
   (consumer_enable_trace_event_default_full_set liveSample rfl).2.2.2.1 _,
   (consumer_enable_trace_event_default_full_set liveSample rfl).2.2.2.2⟩

/-- C8: a layerschange notification replaces currentLayers with the
pushed value — including the absent case, overwriting any previously
cached non-absent value — and emits a layerschange event carrying the new
value on both streams. -/
theorem consumer_layerschange_replaces_current_layers {R A : Type}
    (c : Consumer R A) (layers : Option ConsumerLayers)
    (h : c.closed = false) :
    (c.handleWorkerNotifications (.layerschange layers)).1.currentLayers =
        layers ∧
      (c.handleWorkerNotifications (.layerschange layers)).2.1 =
        [.layerschange layers] ∧
      (c.handleWorkerNotifications (.layerschange layers)).2.2 =
        [.layerschange layers] := by
  simp [Consumer.handleWorkerNotifications, h]

/-- Witness for C8: a concrete consumer with a cached non-absent
currentLayers value receives a layerschange notification carrying no
layers; currentLayers becomes absent. -/
theorem consumer_layerschange_replaces_current_layers_witness :
    (layersSample.handleWorkerNotifications
        (.layerschange none)).1.currentLayers = none ∧
      (layersSample.handleWorkerNotifications
          (.layerschange none)).2.1 = [.layerschange none] ∧
      (layersSample.handleWorkerNotifications
          (.layerschange none)).2.2 = [.layerschange none] :=
  consumer_layerschange_replaces_current_layers layersSample none rfl

/-- Helper: no single interaction ever changes the stored appData
reference. -/
theorem Consumer.step_appData {R A : Type} (c : Consumer R A) (op : Op) :
    ((c.step op).1).appData = c.appData := by
  cases hc : c.closed with
  | true => simp [Consumer.step_closed c op hc]
  | false =>
      cases op with
      | cmd k => cases hk : c.invoke k <;> simp [Consumer.step, hk]
      | reply r => cases r <;> simp [Consumer.step, Consumer.applyReply, hc]
      | notif n =>
          cases n <;> cases hpp : c.producerPaused <;>
            simp [Consumer.step, Consumer.handleWorkerNotifications, hc, hpp]
      | close => simp [Consumer.step, Consumer.close, hc]
      | transportClosed => simp [Consumer.step, Consumer.transportClosed, hc]

/-- Helper: no interaction sequence ever changes the stored appData
reference. -/
theorem Consumer.run_appData {R A : Type} (ops : List Op)
    (c : Consumer R A) : (c.run ops).appData = c.appData := by
  induction ops generalizing c with
  | nil => rfl
  | cons op ops ih =>
      rw [Consumer.run, ih]
      exact Consumer.step_appData c op

/-- C9: the appData reference is fixed at construction — reading appData
on a freshly constructed Consumer returns the supplied value, assigning
to appData is always rejected with an error and leaves the stored state
(in particular the appData reference) unchanged, and reading appData
after any interaction sequence still returns the construction value. -/
theorem consumer_app_data_fixed {R A : Type} (id producerId : String)
    (kind : MediaKind) (rtp : R) (type : ConsumerType) (a x : A)
    (paused producerPaused : Bool) (score : ConsumerScore)
    (preferredLayers : Option ConsumerLayers) (ops : List Op)
    (c : Consumer R A) :
    (Consumer.create id producerId kind rtp type a paused producerPaused
        score preferredLayers).appData = a ∧
      (c.setAppData x).1 =
        .error (.genericError "cannot override appData object") ∧
      (c.setAppData x).2 = c ∧
      ((Consumer.create id producerId kind rtp type a paused producerPaused
          score preferredLayers).run ops).appData = a := by
  refine ⟨rfl, rfl, rfl, ?_⟩
  rw [Consumer.run_appData]
  rfl

/-- C10: close() and transportClosed() are idempotent at the public
interface — invoked on an already-closed Consumer they return normally
with no state change, no Channel request and no further events, in
contrast to the command methods, which fail with InvalidStateError when
closed. -/
theorem consumer_close_idempotent {R A : Type} (c : Consumer R A)
    (h : c.closed = true) :
    Consumer.close c = (c, [], []) ∧
      c.transportClosed = (c, [], []) ∧
      (c.step .close).2.1 = none ∧
      (c.step .close).2.2.1 = [] ∧
      (c.step .close).2.2.2 = [] ∧
      (c.step .transportClosed).2.1 = none ∧
      (c.step .transportClosed).2.2.1 = [] ∧
      (c.step .transportClosed).2.2.2 = [] ∧
      (∀ k : Command, c.invoke k = .error (.invalidStateError "closed")) := by
  refine ⟨by simp [Consumer.close, h], by simp [Consumer.transportClosed, h],
    by simp [Consumer.step_closed c Op.close h],
    by simp [Consumer.step_closed c Op.close h],
    by simp [Consumer.step_closed c Op.close h],
    by simp [Consumer.step_closed c Op.transportClosed h],
    by simp [Consumer.step_closed c Op.transportClosed h],
    by simp [Consumer.step_closed c Op.transportClosed h], ?_⟩
  intro k
  simp [Consumer.invoke, h]

/-- Witness for C10 at the concrete closed sample consumer. -/
theorem consumer_close_idempotent_witness :
    Consumer.close closedSample = (closedSample, [], []) ∧
      closedSample.transportClosed = (closedSample, [], []) ∧
      (closedSample.step .close).2.1 = none ∧
      (closedSample.step .close).2.2.1 = [] ∧
      (closedSample.step .close).2.2.2 = [] ∧
      (closedSample.step .transportClosed).2.1 = none ∧
      (closedSample.step .transportClosed).2.2.1 = [] ∧
      (closedSample.step .transportClosed).2.2.2 = [] ∧
      closedSample.invoke .dump = .error (.invalidStateError "closed") :=
  ⟨(consumer_close_idempotent closedSample rfl).1,
   (consumer_close_idempotent closedSample rfl).2.1,
   (consumer_close_idempotent closedSample rfl).2.2.1,
   (consumer_close_idempotent closedSample rfl).2.2.2.1,
   (consumer_close_idempotent closedSample rfl).2.2.2.2.1,
   (consumer_close_idempotent closedSample rfl).2.2.2.2.2.1,
   (consumer_close_idempotent closedSample rfl).2.2.2.2.2.2.1,
   (consumer_close_idempotent closedSample rfl).2.2.2.2.2.2.2.1,
   (consumer_close_idempotent closedSample rfl).2.2.2.2.2.2.2.2 _⟩
